import Mathlib

/-!
Verification of the core of the `truthy` hallucination-detection service.

The development shallowly embeds the relevant parts of the repository:

* `src/src/models.py`   — the taxonomy enum and the result/input records;
* `src/src/detector.py` — the response parser `_parse_raw`, the robust JSON
  extraction `_clean_json`, the rule-based classifier
  `FreeDetector._heuristic_fallback` and the free-mode dispatch
  `FreeDetector.detect`;
* `src/api.py`          — the multi-provider context aggregator
  `web_search_context` together with its five provider adapters.

Python strings are modelled as Lean `String`/`List Char` (code points, which
matches Python's `len`/slicing).  Python `set`s of strings are modelled as
deduplicated lists; only cardinalities and membership of these sets influence
control flow, so the (randomised) iteration order of a Python `set` is fixed
here to textual order.  The float comparison `overlap < 0.35` is modelled by
the exact rational comparison `20 * |inter| < 7 * denom`; for the token counts
reachable here (far below 2^40) IEEE-754 double rounding cannot flip this
strict comparison, the only coincidence point being `overlap = 7/20` on which
both semantics agree (both say `false`).  Network calls are modelled as
oracles supplied by an environment record; a provider failure of any kind
(network error, timeout, malformed payload, unexpected shape) is one `Except`
error value, mirroring the single `except Exception` handler of the source.
-/

/-! ### Python string primitives -/

/-- Python `str.strip()`: remove leading and trailing whitespace. -/
def pyStrip (s : String) : String :=
  String.mk (((s.toList.dropWhile Char.isWhitespace).reverse.dropWhile
      Char.isWhitespace).reverse)

/-- Auxiliary splitter for `pySplit`: accumulate the current word (reversed). -/
def pySplitAux : List Char → List Char → List (List Char)
  | [], acc => if acc.isEmpty then [] else [acc.reverse]
  | c :: rest, acc =>
    if c.isWhitespace then
      if acc.isEmpty then pySplitAux rest [] else acc.reverse :: pySplitAux rest []
    else pySplitAux rest (c :: acc)

/-- Python `str.split()` with no argument: split on whitespace runs, never
producing empty words. -/
def pySplit (s : String) : List String :=
  (pySplitAux s.toList []).map String.mk

/-- Python slicing `s[:n]` (by code point, as in Python). -/
def strTake (s : String) (n : Nat) : String :=
  String.mk (s.toList.take n)

/-- Python `sep.join(xs)`. -/
def pyJoin (sep : String) : List String → String
  | [] => ""
  | [x] => x
  | x :: y :: rest => x ++ sep ++ pyJoin sep (y :: rest)

/-- Python `str.lower()` (ASCII case folding; all inputs of interest are
ASCII). -/
def pyLower (s : String) : String :=
  String.mk (s.toList.map Char.toLower)

/-- Python substring containment `needle in hay` for strings. -/
def containsSeq : List Char → List Char → Bool
  | [], needle => needle.isEmpty
  | c :: t, needle => needle.isPrefixOf (c :: t) || containsSeq t needle

/-- `string.punctuation` from the Python standard library. -/
def pyPunctuation : List Char :=
  "!\"#$%&\x27()*+,-./:;<=>?@[\\]^_`\x7b|\x7d~".toList

/-! ### `src/src/models.py` -/

/-- The `HallucinationType` enum.  Note the enum *values* are the strings
`"1A"`, `"1B"`, `"2A"`, `"3A"`. -/
inductive HallucinationType where
  | ENTITY_OUT_OF_CONTEXT
  | ENTITY_TUPLE
  | INTENT_OUT_OF_CONTEXT
  | SEMANTIC_TRIPLE
deriving DecidableEq, Repr

/-- `HallucinationType.value` (the string value of each enum member). -/
def HallucinationType.value : HallucinationType → String
  | .ENTITY_OUT_OF_CONTEXT => "1A"
  | .ENTITY_TUPLE => "1B"
  | .INTENT_OUT_OF_CONTEXT => "2A"
  | .SEMANTIC_TRIPLE => "3A"

/-- Iteration order of the enum, as declared in `models.py`. -/
def HallucinationType.all : List HallucinationType :=
  [.ENTITY_OUT_OF_CONTEXT, .ENTITY_TUPLE, .INTENT_OUT_OF_CONTEXT, .SEMANTIC_TRIPLE]

/-- `DetectionInput` (`question`, `answer`, optional `paragraph`). -/
structure DetectionInput where
  question : String
  answer : String
  paragraph : String := ""
deriving DecidableEq, Repr

/-- `HallucinationResult` (the `raw_response` debug field is omitted: no
claim concerns it). -/
structure HallucinationResult where
  is_hallucinated : Bool
  confidence : Int
  hallucination_types : List HallucinationType := []
  hallucinated_elements : List String := []
  explanation : String := ""
  correct_answer : String := ""
deriving DecidableEq, Repr

/-! ### `src/src/detector.py` — response parsing -/

/-- The dictionary `{t.value: t for t in HallucinationType}` built at the top
of `_parse_raw` and of `_heuristic_fallback`, as a lookup function. -/
def type_map (code : String) : Option HallucinationType :=
  HallucinationType.all.find? (fun t => t.value = code)

/-- A hosted-model response after JSON decoding, with the field types the
parser expects.  `raw.get(key, default)` lookups are modelled by the field
defaults. -/
structure RawResponse where
  is_hallucinated : Bool := false
  confidence : Int := 0
  hallucination_types : List String := []
  hallucinated_elements : List String := []
  explanation : String := ""
  correct_answer : String := ""
deriving DecidableEq, Repr

/-- `_parse_raw`: map type-code strings through `type_map` (dropping codes
that are not dictionary keys), truncate to at most one type, and copy the
remaining fields through unchanged. -/
def _parse_raw (raw : RawResponse) : HallucinationResult :=
  let h_types := raw.hallucination_types.filterMap type_map
  let h_types := if h_types.length > 1 then h_types.take 1 else h_types
  { is_hallucinated := raw.is_hallucinated
    confidence := raw.confidence
    hallucination_types := h_types
    hallucinated_elements := raw.hallucinated_elements
    explanation := raw.explanation
    correct_answer := raw.correct_answer }

/-! ### `src/src/detector.py` — heuristic fallback -/

/-- The `STOPWORDS` set of `_heuristic_fallback`. -/
def STOPWORDS : List String :=
  ["the", "a", "an", "is", "was", "are", "were", "be", "been", "being", "have",
   "has", "had", "do", "does", "did", "will", "would", "shall", "should",
   "may", "might", "must", "can", "could", "to", "of", "in", "for", "on",
   "with", "at", "by", "from", "up", "about", "into", "through", "during",
   "it", "its", "this", "that", "these", "those", "and", "but", "or", "nor",
   "not", "so", "yet", "both", "either", "neither", "because", "as", "if",
   "then", "than", "when", "where", "who", "which", "what", "he", "she",
   "they", "we", "you", "i", "me", "him", "her", "us", "them", "also"]

/-- `tokens(t)` of `_heuristic_fallback`: lowercase, delete punctuation,
split on whitespace, as a set (deduplicated list). -/
def heuristicTokens (t : String) : List String :=
  (pySplit (String.mk ((pyLower t).toList.filter
      (fun c => c ∉ pyPunctuation)))).dedup

/-- A token set minus the stopword set (e.g. `tokens(x) - STOPWORDS`). -/
def contentTokens (t : String) : List String :=
  (heuristicTokens t).filter (fun w => w ∉ STOPWORDS)

/-- The capitalised-word set `{w for w in text.split() if w[0].isupper() and
len(w) > 2}` (deduplicated, in textual order; a Python `set` fixes no
order). -/
def capsWords (t : String) : List String :=
  ((pySplit t).filter (fun w =>
      (match w.toList with
       | c :: _ => c.isUpper
       | [] => false) && decide (2 < w.length))).dedup

/-- `novel_caps = caps_ans - caps_para - caps_q`. -/
def novelCaps (inp : DetectionInput) : List String :=
  (capsWords inp.answer).filter
    (fun w => w ∉ capsWords inp.paragraph ∧ w ∉ capsWords inp.question)

/-- The `inversion_pairs` lexicon, in source order. -/
def inversion_pairs : List (List String × List String) :=
  [(["promotes", "supports", "endorses", "advocates", "favors"],
    ["critiques", "opposes", "criticizes", "condemns", "depicts", "warns"]),
   (["won", "victory", "champion", "defeated", "beat"],
    ["lost", "surrendered", "conceded"]),
   (["invented", "created", "founded", "built"],
    ["discovered", "found", "explored"])]

/-- One inversion pair fires when the answer contains a word of one side and
the paragraph contains a word of the opposite side (substring containment on
the lowercased texts, as Python's `in`). -/
def pairMatches (ansL paraL : List Char) (pair : List String × List String) : Bool :=
  (pair.1.any (fun w => containsSeq ansL w.toList) &&
   pair.2.any (fun w => containsSeq paraL w.toList)) ||
  (pair.2.any (fun w => containsSeq ansL w.toList) &&
   pair.1.any (fun w => containsSeq paraL w.toList))

/-- The `for pos_w, neg_w in inversion_pairs: ... break` loop: the first
matching pair in lexicon order, if any.  Later pairs are not examined. -/
def firstInversion (paragraph answer : String) : Option (List String × List String) :=
  inversion_pairs.find? (pairMatches (pyLower answer).toList (pyLower paragraph).toList)

/-- The mutable local state of `_heuristic_fallback` just before its two
`return` statements. -/
structure HeurState where
  is_hallucinated : Bool
  confidence : Int
  h_type : Option String
  hallucinated_elements : List String
  explanation : String
  correct_answer : String

/-- The intersection cardinality `len(ans_tok & para_tok)` (both operands
are deduplicated sets, so filtering the deduplicated answer tokens by
membership gives the cardinality). -/
def interCount (inp : DetectionInput) : Nat :=
  ((contentTokens inp.answer).filter
    (fun w => w ∈ contentTokens inp.paragraph)).length

/-- The overlap denominator `max(len(ans_tok), 1)`. -/
def ansDenom (inp : DetectionInput) : Nat :=
  max (contentTokens inp.answer).length 1

/-- The branch analysis of `_heuristic_fallback` (everything before the final
`return`s).  The Python initial values (`confidence = 50` etc.) are dead:
every control path overwrites them.  The float expression `overlap < 0.35` is
the exact comparison `20 * interCount < 7 * ansDenom` (see the module
comment), and the `{overlap:.0%}` rendering inside the explanation is
approximated by integer percent (no claim constrains the explanation
text). -/
def heurState (inp : DetectionInput) : HeurState :=
  if pyStrip inp.paragraph = "" then
    { is_hallucinated := false, confidence := 40, h_type := none,
      hallucinated_elements := [],
      explanation := "GROQ_API_KEY not configured — using heuristic fallback. Set GROQ_API_KEY for Llama 3.1 8B detection.",
      correct_answer := "" }
  else if novelCaps inp ≠ [] ∧ interCount inp * 20 < ansDenom inp * 7 then
    { is_hallucinated := true, confidence := 72, h_type := some "1",
      hallucinated_elements := (novelCaps inp).take 4,
      explanation :=
        "Answer introduces named entities not found in context: " ++
        pyJoin ", " ((novelCaps inp).take 3) ++ ". Token overlap with paragraph: " ++
        toString (interCount inp * 100 / ansDenom inp) ++ "%.",
      correct_answer := "Answer should be grounded in the provided paragraph." }
  else
      match firstInversion inp.paragraph inp.answer with
      | some _ =>
        { is_hallucinated := true, confidence := 70, h_type := some "3",
          hallucinated_elements := [],
          explanation := "Answer intent contradicts paragraph framing — predicate inversion detected.",
          correct_answer := "Answer relationship should align with paragraph intent." }
      | none =>
        { is_hallucinated := false, confidence := 80, h_type := none,
          hallucinated_elements := [],
          explanation := "No clear hallucination signals detected by rule-based analysis.",
          correct_answer := "" }

/-- The two final `return` statements of `_heuristic_fallback`: a clean
result zeroes types, elements and `correct_answer`; a hallucinated result
passes `h_type` through `type_map` (yielding `[]` when the code is not a
dictionary key). -/
def finishHeur (st : HeurState) : HallucinationResult :=
  if st.is_hallucinated then
    { is_hallucinated := true
      confidence := st.confidence
      hallucination_types :=
        match st.h_type.bind type_map with
        | some t => [t]
        | none => []
      hallucinated_elements := st.hallucinated_elements
      explanation := st.explanation
      correct_answer := st.correct_answer }
  else
    { is_hallucinated := false
      confidence := st.confidence
      hallucination_types := []
      hallucinated_elements := []
      explanation := st.explanation
      correct_answer := "" }

/-- `FreeDetector._heuristic_fallback`. -/
def _heuristic_fallback (inp : DetectionInput) : HallucinationResult :=
  finishHeur (heurState inp)

/-! ### `src/src/detector.py` — free-mode dispatch -/

/-- Failure modes of the hosted Groq call (anything `_groq_detect` can raise:
missing credential, transport errors, HTTP errors, rate limiting, or a
response whose text `_clean_json` cannot decode). -/
inductive GroqFailure where
  | noApiKey
  | network
  | timeout
  | authFailure
  | rateLimit
  | malformedJson
deriving DecidableEq, Repr

/-- Environment of the free detector: the `GROQ_API_KEY` environment variable
and an oracle for the remote call (HTTP request + JSON extraction of
`detector.py` lines 109-130, abstracted as one fallible step producing a
decoded response). -/
structure GroqEnv where
  groqApiKey : String := ""
  response : DetectionInput → Except GroqFailure RawResponse :=
    fun _ => .error .network

/-- `FreeDetector._groq_detect`: raise when the key is unset, otherwise call
the service and parse the response. -/
def _groq_detect (env : GroqEnv) (inp : DetectionInput) :
    Except GroqFailure HallucinationResult :=
  if pyStrip env.groqApiKey = "" then .error .noApiKey
  else
    match env.response inp with
    | .ok raw => .ok (_parse_raw raw)
    | .error e => .error e

/-- `FreeDetector.detect`: `try: return self._groq_detect(inp) except
Exception: return self._heuristic_fallback(inp)`. -/
def FreeDetector.detect (env : GroqEnv) (inp : DetectionInput) :
    Except GroqFailure HallucinationResult :=
  match _groq_detect env inp with
  | .ok r => .ok r
  | .error _ => .ok (_heuristic_fallback inp)

/-! ### `src/src/detector.py` — robust JSON extraction (`_clean_json`) -/

/-- The fence-stripping prefix of `_clean_json`: `text.strip()`, then the
anchored substitutions removing a leading ```json fence, a leading ``` fence,
and a trailing ``` fence (each with the adjacent whitespace the `\s*` in the
patterns consumes). -/
def stripFences (text : String) : List Char :=
  let l := (pyStrip text).toList
  let l := if "```json".toList.isPrefixOf l then (l.drop 7).dropWhile Char.isWhitespace else l
  let l := if "```".toList.isPrefixOf l then (l.drop 3).dropWhile Char.isWhitespace else l
  let r := l.reverse
  if "```".toList.isPrefixOf r then ((r.drop 3).dropWhile Char.isWhitespace).reverse else l

/-- The regex search `re.search(r'\x7b.*\x7d', text, re.DOTALL)` with a greedy
`.*`: the match, when one exists, runs from the first `\x7b` to the last
`\x7d` of the text. -/
def greedyBraceSpan (l : List Char) : Option (List Char) :=
  if ((l.dropWhile (fun c => c ≠ '{')).reverse.dropWhile (fun c => c ≠ '}')).reverse = [] then
    none
  else
    some ((l.dropWhile (fun c => c ≠ '{')).reverse.dropWhile (fun c => c ≠ '}')).reverse

/-- `_clean_json` up to (but not including) the final `json.loads`: the exact
character span handed to the JSON decoder.  When the regex finds no match the
whole fence-stripped text is decoded. -/
def _clean_json_span (text : String) : List Char :=
  let l := stripFences text
  match greedyBraceSpan l with
  | some s => s
  | none => l

/-- Modelled from the spec: the span the specification describes — "the first
balanced `\x7b...\x7d` JSON object occurring in the remaining text".  Scans from
the first `\x7b`, tracking brace depth, and stops at the brace that closes it. -/
def specBalancedGo : List Char → Nat → List Char → Option (List Char)
  | [], _, _ => none
  | c :: rest, depth, acc =>
    if c = '{' then specBalancedGo rest (depth + 1) (c :: acc)
    else if c = '}' then
      if depth ≤ 1 then some (c :: acc).reverse
      else specBalancedGo rest (depth - 1) (c :: acc)
    else specBalancedGo rest depth (c :: acc)

/-- Modelled from the spec: the first balanced `\x7b...\x7d` span of a text. -/
def spec_firstBalancedSpan (l : List Char) : Option (List Char) :=
  specBalancedGo (l.dropWhile (fun c => c ≠ '{')) 0 []

/-! ### `src/api.py` — structured web context -/

/-- One label/value fact of a `WebContext` (named `CtxFact`: `Fact` is taken by Mathlib). -/
structure CtxFact where
  label : String
  value : String
deriving DecidableEq, Repr

/-- One `{title, url, snippet}` source record of a `WebContext`. -/
structure SourceRec where
  title : String
  url : String
  snippet : String
deriving DecidableEq, Repr

/-- The `WebContext` accumulator (the spec's StructuredContext). -/
structure WebContext where
  title : String := ""
  facts : List CtxFact := []
  summary : String := ""
  sources : List SourceRec := []
deriving DecidableEq, Repr

/-- The url components of a context's source list. -/
def sourceUrls (c : WebContext) : List String :=
  c.sources.map (fun s => s.url)

/-- `WebContext.to_paragraph`. -/
def WebContext.to_paragraph (c : WebContext) : String :=
  let parts : List String :=
    (if c.title ≠ "" then ["Topic: " ++ c.title] else []) ++
    (if c.summary ≠ "" then [c.summary] else []) ++
    (if c.facts ≠ [] then
      ["Key facts: " ++ pyJoin "; " ((c.facts.take 8).map (fun f => f.label ++ ": " ++ f.value))]
     else [])
  pyStrip (pyJoin "\n\n" parts)

/-! ### `src/api.py` — query cleaning and small helpers -/

/-- The alternatives of the interrogative-trimming regex of `_clean_query`,
in pattern order. -/
def interrogatives : List String :=
  ["what", "who", "when", "where", "why", "how", "which", "is", "are", "was",
   "were", "did", "do", "does", "tell me about"]

/-- Whether the anchored, case-insensitive pattern `^(w)\s+` matches `q` for
alternative `w`: `w` is a prefix (ignoring case) and at least one whitespace
character follows. -/
def qwordMatches (q w : String) : Bool :=
  (pyLower w).toList.isPrefixOf (pyLower q).toList &&
  (match q.toList.drop w.length with
   | c :: _ => c.isWhitespace
   | [] => false)

/-- `_clean_query`: strip the question, remove one leading interrogative (the
regex engine tries the alternatives in order and `\s+` greedily eats the
following whitespace run), then keep the trimmed form only when longer than
10 characters, capping at 200 characters. -/
def _clean_query (question : String) : String :=
  let q := pyStrip question
  let q2 :=
    match interrogatives.find? (qwordMatches q) with
    | some w => String.mk ((q.toList.drop w.length).dropWhile Char.isWhitespace)
    | none => q
  if 10 < q2.length then strTake q2 200 else strTake question 200

/-- The tag-deleting substitution `re.sub(r'<[^>]+>', '', snippet)` of
`_wikipedia_search`, with explicit fuel (each step consumes at least one
character, so `l.length` suffices). -/
def stripTagsFuel : Nat → List Char → List Char
  | 0, l => l
  | _ + 1, [] => []
  | fuel + 1, c :: rest =>
    if c = '<' then
      let seg := rest.takeWhile (fun x => x ≠ '>')
      match rest.drop seg.length with
      | '>' :: rest' =>
        if seg.isEmpty then c :: stripTagsFuel fuel rest
        else stripTagsFuel fuel rest'
      | _ => c :: stripTagsFuel fuel rest
    else c :: stripTagsFuel fuel rest

/-- HTML tag removal, as in `_wikipedia_search`. -/
def stripTags (l : List Char) : List Char :=
  stripTagsFuel l.length l

/-- Hex digit for percent-encoding. -/
def hexDigit (n : Nat) : Char :=
  if n < 10 then Char.ofNat (48 + n) else Char.ofNat (55 + n)

/-- `urllib.parse.quote` (default `safe='/'`), for the ASCII range; non-ASCII
code points are approximated by encoding their low byte (no claim depends on
non-ASCII urls). -/
def pyQuote (s : String) : String :=
  String.mk ((s.toList.map (fun c =>
    if c.isAlphanum || c ∈ ['_', '.', '-', '~', '/'] then [c]
    else ['%', hexDigit (c.toNat / 16 % 16), hexDigit (c.toNat % 16)])).flatten)

/-- The article url `_wikipedia_search` synthesises from a result title. -/
def wikiUrl (title : String) : String :=
  "https://en.wikipedia.org/wiki/" ++
  pyQuote (String.mk (title.toList.map (fun c => if c = ' ' then '_' else c)))

/-! ### `src/api.py` — provider adapters

Each adapter is split into the fallible network/JSON step (modelled as an
oracle in the environment, its failure being the exception the chain
swallows) and the pure context update performed on the decoded payload,
which is embedded below.  In the source every mutation of `ctx` happens
after the payload has been fetched and decoded, so a failure leaves the
accumulator untouched. -/

/-- One Tavily result item. -/
structure TavilyItem where
  title : String := ""
  content : String := ""
  url : String := ""
deriving DecidableEq, Repr

/-- A decoded Tavily payload. -/
structure TavilyResp where
  answer : String := ""
  results : List TavilyItem := []
deriving DecidableEq, Repr

/-- The Tavily items kept by the loop: the first 4 results whose 300-capped
content is non-empty. -/
def tavilyKept (resp : TavilyResp) : List TavilyItem :=
  (resp.results.take 4).filter (fun it => strTake it.content 300 ≠ "")

/-- The `summaries` list the Tavily loop accumulates. -/
def tavilySummaries (resp : TavilyResp) : List String :=
  (tavilyKept resp).map (fun it => strTake it.content 300)

/-- `ctx.facts.insert(0, {"Direct Answer": ...})` guarded by truthiness of
the answer field (used by the Tavily and DuckDuckGo adapters). -/
def addDirectAnswer (ans : String) (c : WebContext) : WebContext :=
  if ans ≠ "" then { c with facts := ⟨"Direct Answer", ans⟩ :: c.facts } else c

/-- Append records to `ctx.sources`. -/
def addSources (ss : List SourceRec) (c : WebContext) : WebContext :=
  { c with sources := c.sources ++ ss }

/-- Append facts to `ctx.facts`. -/
def addFacts (fs : List CtxFact) (c : WebContext) : WebContext :=
  { c with facts := c.facts ++ fs }

/-- Unconditional `ctx.summary = s`. -/
def setSummary (s : String) (c : WebContext) : WebContext :=
  { c with summary := s }

/-- `if not ctx.summary: ctx.summary = s`. -/
def setSummaryIfEmpty (s : String) (c : WebContext) : WebContext :=
  if c.summary = "" then { c with summary := s } else c

/-- `if not ctx.title: ctx.title = t`. -/
def setTitleIfEmpty (t : String) (c : WebContext) : WebContext :=
  if c.title = "" then { c with title := t } else c

/-- `if not ctx.title and results: ctx.title = results[0].get("title", "")`
(the Tavily and Brave title assignment), over the result titles. -/
def setTitleIfEmptyFromResults (titles : List String) (c : WebContext) : WebContext :=
  if c.title = "" then
    match titles with
    | [] => c
    | t :: _ => { c with title := t }
  else c

/-- The source records the Tavily loop appends. -/
def tavilySources (resp : TavilyResp) : List SourceRec :=
  (tavilyKept resp).map
    (fun it => ⟨it.title, it.url, strTake (strTake it.content 300) 200⟩)

/-- `_tavily_search` (context update on a decoded payload): direct-answer
fact, the per-item source appends, then — when any summary text was found —
the first-writer summary assignment and the title assignment. -/
def _tavily_search (resp : TavilyResp) (c : WebContext) : WebContext :=
  if tavilySummaries resp ≠ [] then
    setTitleIfEmptyFromResults (resp.results.map (fun r => r.title))
      (setSummaryIfEmpty (pyJoin " " ((tavilySummaries resp).take 2))
        (addSources (tavilySources resp) (addDirectAnswer resp.answer c)))
  else addSources (tavilySources resp) (addDirectAnswer resp.answer c)

/-- One Brave web result. -/
structure BraveItem where
  title : String := ""
  description : String := ""
  url : String := ""
deriving DecidableEq, Repr

/-- A decoded Brave payload (`data["web"]["results"]`). -/
structure BraveResp where
  results : List BraveItem := []
deriving DecidableEq, Repr

/-- The Brave items kept by the loop: the first 4 results with a non-empty
description. -/
def braveKept (resp : BraveResp) : List BraveItem :=
  (resp.results.take 4).filter (fun it => it.description ≠ "")

/-- The `summaries` list the Brave loop accumulates. -/
def braveSummaries (resp : BraveResp) : List String :=
  (braveKept resp).map (fun it => it.title ++ ": " ++ it.description)

/-- The source records the Brave loop appends. -/
def braveSources (resp : BraveResp) : List SourceRec :=
  (braveKept resp).map (fun it => ⟨it.title, it.url, strTake it.description 200⟩)

/-- `_brave_search` (context update on a decoded payload).  Note the summary
assignment is unconditional here — the chain only calls this provider while
`ctx.summary` is empty. -/
def _brave_search (resp : BraveResp) (c : WebContext) : WebContext :=
  if braveSummaries resp ≠ [] then
    setTitleIfEmptyFromResults (resp.results.map (fun r => r.title))
      (setSummary (pyJoin " " ((braveSummaries resp).take 3))
        (addSources (braveSources resp) c))
  else addSources (braveSources resp) c

/-- One DuckDuckGo related topic (only dict-shaped entries with both `Text`
and `FirstURL` survive the source's checks; both fields non-empty encodes
truthiness). -/
structure DDGTopic where
  text : String := ""
  firstURL : String := ""
deriving DecidableEq, Repr

/-- A decoded DuckDuckGo instant-answer payload.  An empty string/list models
a missing or falsy field (the source only tests truthiness; the `.get`
defaults "Wikipedia" / "https://en.wikipedia.org" for the abstract source are
folded into the update below). -/
structure DDGResp where
  heading : String := ""
  abstractText : String := ""
  abstractURL : String := ""
  answer : String := ""
  infobox : List CtxFact := []
  relatedTopics : List DDGTopic := []
deriving DecidableEq, Repr

/-- The DuckDuckGo abstract step: when `AbstractText` is truthy, overwrite
the summary and append the abstract source (with the `.get` defaults
"Wikipedia" / "https://en.wikipedia.org"). -/
def ddgAbstract (resp : DDGResp) (c : WebContext) : WebContext :=
  if resp.abstractText ≠ "" then
    setSummary resp.abstractText
      (addSources
        [⟨(if resp.heading ≠ "" then resp.heading else "Wikipedia"),
          (if resp.abstractURL ≠ "" then resp.abstractURL
           else "https://en.wikipedia.org"),
          strTake resp.abstractText 200⟩] c)
  else c

/-- The infobox facts DuckDuckGo appends (first 10 entries with truthy label
and value). -/
def ddgInfobox (resp : DDGResp) : List CtxFact :=
  (resp.infobox.take 10).filter (fun f => f.label ≠ "" ∧ f.value ≠ "")

/-- The related-topic sources DuckDuckGo appends (first 3 dict-shaped topics
with truthy `Text` and `FirstURL`). -/
def ddgTopicSources (resp : DDGResp) : List SourceRec :=
  ((resp.relatedTopics.take 3).filter
    (fun rt => rt.text ≠ "" ∧ rt.firstURL ≠ "")).map
    (fun rt => ⟨strTake rt.text 60, rt.firstURL, strTake rt.text 200⟩)

/-- `_duckduckgo_search` (context update on a decoded payload).  The title
assignment is unconditional in the source. -/
def _duckduckgo_search (resp : DDGResp) (c : WebContext) : WebContext :=
  addSources (ddgTopicSources resp)
    (addFacts (ddgInfobox resp)
      (addDirectAnswer resp.answer
        (ddgAbstract resp
          (if resp.heading ≠ "" then { c with title := resp.heading } else c))))

/-- A decoded Wikipedia REST summary payload.  `pageUrl` carries the value of
`wiki.get("content_urls", ...).get(..., "https://en.wikipedia.org")` with its
default already applied. -/
structure WikiRestResp where
  title : String := ""
  extract : String := ""
  pageUrl : String := "https://en.wikipedia.org"
deriving DecidableEq, Repr

/-- The guarded source append of `_wikipedia_rest`: the page source is only
appended when its url is not already present (the one url deduplication in
the chain). -/
def wikiRestAddSource (resp : WikiRestResp) (c : WebContext) : WebContext :=
  if c.sources.all (fun s => s.url ≠ resp.pageUrl) then
    addSources
      [⟨(if resp.title ≠ "" then resp.title else "Wikipedia"),
        resp.pageUrl, strTake resp.extract 200⟩] c
  else c

/-- `_wikipedia_rest` (see the doc of `wikiRestAddSource` above). -/
def _wikipedia_rest (resp : WikiRestResp) (c : WebContext) : WebContext :=
  if resp.extract = "" then c
  else
    wikiRestAddSource resp
      (setSummaryIfEmpty (strTake resp.extract 800)
        (setTitleIfEmpty resp.title c))

/-- One Wikipedia full-text search hit (`snippet` is the raw, tagged
snippet). -/
structure WikiSearchItem where
  title : String := ""
  snippet : String := ""
deriving DecidableEq, Repr

/-- The loop body of `_wikipedia_search` over the first two hits. -/
def wikiSearchGo : List WikiSearchItem → WebContext → WebContext
  | [], c => c
  | it :: rest, c =>
    if String.mk (stripTags it.snippet.toList) ≠ "" then
      wikiSearchGo rest
        (addSources
          [⟨it.title, wikiUrl it.title,
            strTake (String.mk (stripTags it.snippet.toList)) 200⟩]
          (setSummaryIfEmpty
            (it.title ++ ": " ++ String.mk (stripTags it.snippet.toList)) c))
    else wikiSearchGo rest c

/-- `_wikipedia_search` (context update on a decoded payload). -/
def _wikipedia_search (resp : List WikiSearchItem) (c : WebContext) : WebContext :=
  wikiSearchGo (resp.take 2) c

/-! ### `src/api.py` — the aggregation chain (`web_search_context`) -/

/-- A provider failure.  Any of these aborts one provider's network/JSON step
and is swallowed by the `except Exception: pass` handler of the chain. -/
inductive PErr where
  | network
  | timeout
  | malformed
  | badShape
deriving DecidableEq, Repr

/-- Environment of the aggregator: the two optional credentials and, for each
provider, an oracle mapping the issued query to either a decoded payload or
a failure. -/
structure ProviderEnv where
  tavilyApiKey : String := ""
  braveApiKey : String := ""
  tavily : String → Except PErr TavilyResp := fun _ => .error .network
  brave : String → Except PErr BraveResp := fun _ => .error .network
  ddg : String → Except PErr DDGResp := fun _ => .error .network
  wikiRest : String → Except PErr WikiRestResp := fun _ => .error .network
  wikiSearch : String → Except PErr (List WikiSearchItem) := fun _ => .error .network

/-- `try: provider(...) except Exception: pass` — on failure the accumulator
is returned unchanged. -/
def attempt {α : Type} (r : Except PErr α) (f : α → WebContext → WebContext)
    (c : WebContext) : WebContext :=
  match r with
  | .ok resp => f resp c
  | .error _ => c

/-- Chain step 1: Tavily, attempted only when its key is configured. -/
def step_tavily (env : ProviderEnv) (q : String) (c : WebContext) : WebContext :=
  if pyStrip env.tavilyApiKey ≠ "" then attempt (env.tavily q) _tavily_search c else c

/-- Chain step 2: Brave, attempted only when its key is configured and no
summary has been found yet. -/
def step_brave (env : ProviderEnv) (q : String) (c : WebContext) : WebContext :=
  if pyStrip env.braveApiKey ≠ "" ∧ c.summary = "" then
    attempt (env.brave q) _brave_search c
  else c

/-- Chain step 3: DuckDuckGo, attempted only when no summary has been found
yet. -/
def step_ddg (env : ProviderEnv) (q : String) (c : WebContext) : WebContext :=
  if c.summary = "" then attempt (env.ddg q) _duckduckgo_search c else c

/-- Chain step 4: Wikipedia REST, attempted while the summary is still
shorter than 150 characters. -/
def step_wikiRest (env : ProviderEnv) (q : String) (c : WebContext) : WebContext :=
  if c.summary.length < 150 then attempt (env.wikiRest q) _wikipedia_rest c else c

/-- Chain step 5: Wikipedia full-text search, attempted only when no summary
has been found. -/
def step_wikiSearch (env : ProviderEnv) (q : String) (c : WebContext) : WebContext :=
  if c.summary = "" then attempt (env.wikiSearch q) _wikipedia_search c else c

/-- The accumulator after step 1 of one run. -/
def stage1 (env : ProviderEnv) (question : String) : WebContext :=
  step_tavily env (_clean_query question) {}

/-- The accumulator after step 2 of one run. -/
def stage2 (env : ProviderEnv) (question : String) : WebContext :=
  step_brave env (_clean_query question) (stage1 env question)

/-- The accumulator after step 3 of one run. -/
def stage3 (env : ProviderEnv) (question : String) : WebContext :=
  step_ddg env (_clean_query question) (stage2 env question)

/-- The accumulator after step 4 of one run. -/
def stage4 (env : ProviderEnv) (question : String) : WebContext :=
  step_wikiRest env (_clean_query question) (stage3 env question)

/-- The accumulator after step 5 of one run. -/
def stage5 (env : ProviderEnv) (question : String) : WebContext :=
  step_wikiSearch env (_clean_query question) (stage4 env question)

/-- `web_search_context`: run the chain and cap `sources` to the first 4.
The codomain is `Except` to make the error flow explicit: every fallible
provider step sits inside an `attempt` handler, mirroring the source's
`try/except` blocks, and the function itself ends in `.ok`. -/
def web_search_context (env : ProviderEnv) (question : String) :
    Except PErr WebContext :=
  .ok { stage5 env question with sources := (stage5 env question).sources.take 4 }

/-- The context a caller observes (the chain never fails, so the `.error`
arm is unreachable). -/
def wscResult (env : ProviderEnv) (question : String) : WebContext :=
  match web_search_context env question with
  | .ok c => c
  | .error _ => {}

/-! ### Claim theorems — detector -/

/-- A kind-1 input: the paragraph grounds the answer on Nolan, the answer
introduces Spielberg, the novel-entity set is non-empty and the overlap is
1/3 < 0.35. -/
def c1Input : DetectionInput :=
  { question := "Who directed Inception?"
    answer := "directed by Steven Spielberg"
    paragraph := "Inception is a film directed by Christopher Nolan." }

/-- C1.  On an input satisfying the kind-1 conditions the heuristic fallback
does flag a hallucination with confidence 72 and the first 4 novel entities,
but its type list is empty: the branch stores the code `"1"`, while the
`type_map` keys are the enum values `"1A"/"1B"/"2A"/"3A"`, so the lookup
fails and the guard `if h_type in type_map` silently yields `[]` instead of
the claimed Out-of-Context-Entity type. -/
theorem heuristic_kind1_fires_with_empty_type_list :
    (_heuristic_fallback c1Input).is_hallucinated = true ∧
    (_heuristic_fallback c1Input).confidence = 72 ∧
    (_heuristic_fallback c1Input).hallucinated_elements = ["Steven", "Spielberg"] ∧
    (_heuristic_fallback c1Input).hallucination_types = [] :=
  ⟨rfl, rfl, rfl, rfl⟩

/-- A kind-3 input: no novel capitalised entity, but the answer contains
"promotes" and the paragraph contains "depicts" (first inversion pair). -/
def c2Input : DetectionInput :=
  { question := "What is the theme?"
    answer := "It promotes surveillance."
    paragraph := "The novel depicts surveillance." }

/-- C2.  On an input firing the inversion rule the heuristic fallback flags a
hallucination with confidence 70, but again with an empty type list: the
stored code `"3"` is not among the `type_map` keys `"1A"/"1B"/"2A"/"3A"`, so
no Out-of-Context-Intent type is attached. -/
theorem heuristic_inversion_fires_with_empty_type_list :
    (_heuristic_fallback c2Input).is_hallucinated = true ∧
    (_heuristic_fallback c2Input).confidence = 70 ∧
    (_heuristic_fallback c2Input).hallucination_types = [] :=
  ⟨rfl, rfl, rfl⟩

/-- C3.  `_parse_raw` silently drops the numeric code strings `"1".."4"` that
the system prompt instructs the model to return (its `type_map` keys are the
enum values `"1A"/"1B"/"2A"/"3A"`), while a code such as `"1A"` does map; so
a response carrying `["1"]` yields an empty type list. -/
theorem parse_raw_drops_numeric_codes :
    type_map "1" = none ∧
    type_map "1A" = some HallucinationType.ENTITY_OUT_OF_CONTEXT ∧
    (_parse_raw { is_hallucinated := true, confidence := 90,
                  hallucination_types := ["1"] }).hallucination_types = [] :=
  ⟨rfl, rfl, rfl⟩

/-- C7 counterexample.  The hosted-response parser copies fields through
unvalidated: a raw response with `is_hallucinated = false` may still carry a
taxonomy type and a non-empty `correct_answer`. -/
theorem parse_raw_clean_invariant_violated :
    (_parse_raw { is_hallucinated := false, confidence := 50,
                  hallucination_types := ["1A"],
                  correct_answer := "x" }).is_hallucinated = false ∧
    (_parse_raw { is_hallucinated := false, confidence := 50,
                  hallucination_types := ["1A"],
                  correct_answer := "x" }).hallucination_types =
      [HallucinationType.ENTITY_OUT_OF_CONTEXT] ∧
    (_parse_raw { is_hallucinated := false, confidence := 50,
                  hallucination_types := ["1A"],
                  correct_answer := "x" }).correct_answer = "x" :=
  ⟨rfl, rfl, rfl⟩

/-- C7 (amended).  On the heuristic path the invariant does hold: a clean
result carries no taxonomy type and an empty `correct_answer`. -/
theorem heuristic_clean_no_type_no_correct_answer (inp : DetectionInput)
    (h : (_heuristic_fallback inp).is_hallucinated = false) :
    (_heuristic_fallback inp).hallucination_types = [] ∧
    (_heuristic_fallback inp).correct_answer = "" := by
  by_cases hst : (heurState inp).is_hallucinated = true
  · exfalso
    unfold _heuristic_fallback finishHeur at h
    rw [if_pos hst] at h
    simp at h
  · unfold _heuristic_fallback finishHeur
    rw [if_neg hst]
    exact ⟨rfl, rfl⟩

/-- C7 witness: a concrete clean heuristic result. -/
theorem heuristic_clean_no_type_no_correct_answer_witness :
    (_heuristic_fallback { question := "q", answer := "a" }).is_hallucinated = false ∧
    (_heuristic_fallback { question := "q", answer := "a" }).hallucination_types = [] ∧
    (_heuristic_fallback { question := "q", answer := "a" }).correct_answer = "" :=
  ⟨rfl,
   (heuristic_clean_no_type_no_correct_answer
     { question := "q", answer := "a" } rfl).1,
   (heuristic_clean_no_type_no_correct_answer
     { question := "q", answer := "a" } rfl).2⟩

/-- The four confidence constants a heuristic run can end with. -/
theorem heurState_confidence_cases (inp : DetectionInput) :
    (heurState inp).confidence = 40 ∨ (heurState inp).confidence = 72 ∨
    (heurState inp).confidence = 70 ∨ (heurState inp).confidence = 80 := by
  unfold heurState
  split
  · exact Or.inl rfl
  · split
    · exact Or.inr (Or.inl rfl)
    · split
      · exact Or.inr (Or.inr (Or.inl rfl))
      · exact Or.inr (Or.inr (Or.inr rfl))

/-- `finishHeur` copies the confidence through. -/
theorem finishHeur_confidence (st : HeurState) :
    (finishHeur st).confidence = st.confidence := by
  unfold finishHeur
  split <;> rfl

/-- C8 (amended).  Every heuristic-path result has confidence within
`[0, 100]` (it is one of 40, 70, 72, 80). -/
theorem heuristic_confidence_in_range (inp : DetectionInput) :
    0 ≤ (_heuristic_fallback inp).confidence ∧
    (_heuristic_fallback inp).confidence ≤ 100 := by
  unfold _heuristic_fallback
  rw [finishHeur_confidence]
  rcases heurState_confidence_cases inp with h | h | h | h <;> rw [h] <;> exact ⟨by decide, by decide⟩

/-- C8 witness: the amended range theorem at a concrete input. -/
theorem heuristic_confidence_in_range_witness :
    0 ≤ (_heuristic_fallback { question := "q", answer := "a" }).confidence ∧
    (_heuristic_fallback { question := "q", answer := "a" }).confidence ≤ 100 :=
  heuristic_confidence_in_range _

/-- C8 counterexample.  The hosted-response parser does not clamp: a raw
confidence of 150 is returned as is, violating `confidence ≤ 100`. -/
theorem parse_raw_confidence_out_of_range :
    (_parse_raw { confidence := 150 }).confidence = 150 ∧
    ¬ ((_parse_raw { confidence := 150 }).confidence ≤ 100) :=
  ⟨rfl, by decide⟩

/-- C10.  The free-mode `detect` never propagates an error: it always
returns a result, and whenever the Groq step fails — for any of its failure
modes — the returned result is exactly the heuristic fallback on the same
input. -/
theorem free_mode_never_raises (env : GroqEnv) (inp : DetectionInput) :
    (∃ r, FreeDetector.detect env inp = .ok r) ∧
    (∀ e, _groq_detect env inp = .error e →
      FreeDetector.detect env inp = .ok (_heuristic_fallback inp)) := by
  constructor
  · cases h : _groq_detect env inp with
    | ok r => exact ⟨r, by unfold FreeDetector.detect; rw [h]⟩
    | error e => exact ⟨_heuristic_fallback inp, by unfold FreeDetector.detect; rw [h]⟩
  · intro e he
    unfold FreeDetector.detect
    rw [he]

/-- C10 witness: with no key configured the Groq step fails and `detect`
returns the heuristic result. -/
theorem free_mode_never_raises_witness :
    FreeDetector.detect {} { question := "q", answer := "a" } =
      .ok (_heuristic_fallback { question := "q", answer := "a" }) :=
  (free_mode_never_raises {} _).2 .noApiKey rfl

/-! ### Claim theorems — aggregator totality and source cap -/

/-- C4.  For every environment — hence every combination of provider
failures, every provider's step being wrapped in its own swallow-the-error
handler — the aggregator returns a context; and with nothing configured and
every provider failing it returns the all-empty context. -/
theorem aggregator_never_raises :
    (∀ (env : ProviderEnv) (q : String), ∃ c, web_search_context env q = .ok c) ∧
    web_search_context {} "Where is Paris?" = .ok {} :=
  ⟨fun _ _ => ⟨_, rfl⟩, rfl⟩

set_option maxHeartbeats 1000000 in
/-- C5 (amended).  The returned context never holds more than 4 sources. -/
theorem aggregator_at_most_four_sources (env : ProviderEnv) (q : String) :
    ∃ c, web_search_context env q = .ok c ∧ c.sources.length ≤ 4 := by
  refine ⟨_, rfl, ?_⟩
  show ((stage5 env q).sources.take 4).length ≤ 4
  rw [List.length_take]
  exact min_le_left _ _

/-- An environment in which DuckDuckGo answers with an abstract whose url
also appears among its related topics. -/
def envDupUrl : ProviderEnv :=
  { ddg := fun _ => .ok
      { heading := "H", abstractText := "A", abstractURL := "https://u",
        relatedTopics := [{ text := "T1", firstURL := "https://u" }] } }

/-- C5 counterexample.  Source urls are not pairwise distinct: only the
Wikipedia-REST adapter checks for an existing url before appending, so the
DuckDuckGo adapter can emit the same url twice and the final list keeps the
duplicate. -/
theorem aggregator_duplicate_source_urls :
    sourceUrls (wscResult envDupUrl "Who is X?") = ["https://u", "https://u"] ∧
    ¬ (sourceUrls (wscResult envDupUrl "Who is X?")).Nodup :=
  ⟨rfl, by decide⟩

/-! ### Claim theorems — robust JSON extraction -/

/-- Dropping a prefix on which the predicate holds everywhere. -/
theorem dropWhile_append_of_all {p : Char → Bool} {a b : List Char}
    (h : ∀ x ∈ a, p x = true) :
    (a ++ b).dropWhile p = b.dropWhile p := by
  induction a with
  | nil => rfl
  | cons x t ih =>
    rw [List.cons_append, List.dropWhile_cons, h x (by simp)]
    exact ih fun y hy => h y (by simp [hy])

/-- `specBalancedGo` at depth 1 runs through brace-free text and stops at the
next closing brace. -/
theorem specBalancedGo_through {m : List Char}
    (h : ∀ c ∈ m, c ≠ '{' ∧ c ≠ '}') (acc rest : List Char) :
    specBalancedGo (m ++ '}' :: rest) 1 acc = some (acc.reverse ++ (m ++ ['}'])) := by
  induction m generalizing acc with
  | nil =>
    show specBalancedGo ('}' :: rest) 1 acc = _
    unfold specBalancedGo
    rw [if_neg (by decide), if_pos rfl, if_pos (by decide)]
    simp
  | cons x t ih =>
    obtain ⟨hx1, hx2⟩ := h x (by simp)
    show specBalancedGo (x :: (t ++ '}' :: rest)) 1 acc = _
    unfold specBalancedGo
    rw [if_neg hx1, if_neg hx2,
      ih (fun c hc => h c (by simp [hc])) (x :: acc)]
    simp

/-- C9 (amended).  After fence stripping, `_clean_json` parses the span from
the first `\x7b` to the last `\x7d` (the greedy regex match); on a text holding a
single brace-balanced object this is exactly the first balanced object of
the spec's description. -/
theorem greedy_span_single_object (a m : List Char)
    (ha : ∀ c ∈ a, c ≠ '{' ∧ c ≠ '}') (hm : ∀ c ∈ m, c ≠ '{' ∧ c ≠ '}') :
    greedyBraceSpan (a ++ '{' :: (m ++ ['}'])) = some ('{' :: (m ++ ['}'])) ∧
    spec_firstBalancedSpan (a ++ '{' :: (m ++ ['}'])) = some ('{' :: (m ++ ['}'])) := by
  have hdrop : (a ++ '{' :: (m ++ ['}'])).dropWhile (fun c => c ≠ '{') =
      '{' :: (m ++ ['}']) := by
    rw [dropWhile_append_of_all (fun x hx => by simp [(ha x hx).1]),
      List.dropWhile_cons]
    simp
  have hrev : ('{' :: (m ++ ['}'])).reverse = '}' :: (m.reverse ++ ['{']) := by
    simp
  constructor
  · unfold greedyBraceSpan
    rw [hdrop, hrev, List.dropWhile_cons]
    simp
  · unfold spec_firstBalancedSpan
    rw [hdrop]
    unfold specBalancedGo
    rw [if_pos rfl]
    have := specBalancedGo_through hm ['{'] []
    simpa using this

/-- C9 amended-theorem witness at a concrete fenced single-object text. -/
theorem greedy_span_single_object_witness :
    greedyBraceSpan ("ab ".toList ++ '{' :: ("\"x\": 1".toList ++ ['}'])) =
      some ('{' :: ("\"x\": 1".toList ++ ['}'])) ∧
    spec_firstBalancedSpan ("ab ".toList ++ '{' :: ("\"x\": 1".toList ++ ['}'])) =
      some ('{' :: ("\"x\": 1".toList ++ ['}'])) :=
  greedy_span_single_object "ab ".toList "\"x\": 1".toList
    (by decide) (by decide)

/-- A response text holding two JSON objects. -/
def twoObjectsText : String := "\x7b\"a\": 1\x7d \x7b\"b\": 2\x7d"

/-- C9 counterexample.  On a text with two objects the spec's description
would hand the first balanced object to the decoder, but `_clean_json` hands
over the whole greedy span from the first `\x7b` to the last `\x7d`. -/
theorem clean_json_greedy_not_first_balanced :
    spec_firstBalancedSpan (stripFences twoObjectsText) = some "\x7b\"a\": 1\x7d".toList ∧
    _clean_json_span twoObjectsText = twoObjectsText.toList ∧
    _clean_json_span twoObjectsText ≠ "\x7b\"a\": 1\x7d".toList :=
  ⟨rfl, rfl, by decide⟩

/-! ### Claim theorems — first-writer-wins in the aggregator -/

/-- Nonempty strings have nonempty data. -/
theorem str_ne_iff_data {s : String} : s ≠ "" ↔ s.data ≠ [] := by
  constructor
  · intro h hd
    exact h (by cases s with | mk d => cases hd; rfl)
  · intro h he
    exact h (by rw [he])

/-- Appending cannot erase a nonempty left part. -/
theorem append_ne_left {a : String} (b : String) (ha : a ≠ "") : a ++ b ≠ "" := by
  rw [str_ne_iff_data] at ha ⊢
  have : (a ++ b).data = a.data ++ b.data := by cases a; cases b; rfl
  rw [this]
  simp only [ne_eq, List.append_eq_nil]
  exact fun h => ha h.1

/-- Appending cannot erase a nonempty right part. -/
theorem append_ne_right (a : String) {b : String} (hb : b ≠ "") : a ++ b ≠ "" := by
  rw [str_ne_iff_data] at hb ⊢
  have : (a ++ b).data = a.data ++ b.data := by cases a; cases b; rfl
  rw [this]
  simp only [ne_eq, List.append_eq_nil]
  exact fun h => hb h.2

/-- A join headed by a nonempty string is nonempty. -/
theorem pyJoin_cons_ne (sep x : String) (xs : List String) (hx : x ≠ "") :
    pyJoin sep (x :: xs) ≠ "" := by
  cases xs with
  | nil => simpa [pyJoin] using hx
  | cons y ys =>
    show x ++ sep ++ pyJoin sep (y :: ys) ≠ ""
    exact append_ne_left _ (append_ne_left _ hx)

/-- Every summary string the Tavily loop collects is nonempty (the loop
skips empty snippets). -/
theorem mem_tavilySummaries_ne (resp : TavilyResp) :
    ∀ s ∈ tavilySummaries resp, s ≠ "" := by
  intro s hs
  unfold tavilySummaries tavilyKept at hs
  simp only [List.mem_map, List.mem_filter, decide_eq_true_eq] at hs
  obtain ⟨it, ⟨_, hne⟩, rfl⟩ := hs
  exact hne

/-- When Tavily found any summary text, the joined summary is nonempty. -/
theorem tavilyJoin_ne (resp : TavilyResp) (h : tavilySummaries resp ≠ []) :
    pyJoin " " ((tavilySummaries resp).take 2) ≠ "" := by
  cases hs : tavilySummaries resp with
  | nil => exact absurd hs h
  | cons s rest =>
    have hsne : s ≠ "" :=
      mem_tavilySummaries_ne resp s (by rw [hs]; exact List.mem_cons_self _ _)
    show pyJoin " " (s :: rest.take 1) ≠ ""
    exact pyJoin_cons_ne _ _ _ hsne

/-- Every summary string the Brave loop collects is nonempty (it embeds the
separator `": "`). -/
theorem mem_braveSummaries_ne (resp : BraveResp) :
    ∀ s ∈ braveSummaries resp, s ≠ "" := by
  intro s hs
  unfold braveSummaries at hs
  simp only [List.mem_map] at hs
  obtain ⟨it, _, rfl⟩ := hs
  exact append_ne_left _ (append_ne_right _ (by decide))

/-- When Brave found any summary text, the joined summary is nonempty. -/
theorem braveJoin_ne (resp : BraveResp) (h : braveSummaries resp ≠ []) :
    pyJoin " " ((braveSummaries resp).take 3) ≠ "" := by
  cases hs : braveSummaries resp with
  | nil => exact absurd hs h
  | cons s rest =>
    have hsne : s ≠ "" :=
      mem_braveSummaries_ne resp s (by rw [hs]; exact List.mem_cons_self _ _)
    show pyJoin " " (s :: rest.take 2) ≠ ""
    exact pyJoin_cons_ne _ _ _ hsne

/-- `addDirectAnswer` only touches facts. -/
theorem addDirectAnswer_title (a : String) (c : WebContext) :
    (addDirectAnswer a c).title = c.title := by
  unfold addDirectAnswer; split <;> rfl

/-- `addDirectAnswer` only touches facts. -/
theorem addDirectAnswer_summary (a : String) (c : WebContext) :
    (addDirectAnswer a c).summary = c.summary := by
  unfold addDirectAnswer; split <;> rfl

/-- `addSources` only touches sources. -/
theorem addSources_title (ss : List SourceRec) (c : WebContext) :
    (addSources ss c).title = c.title := rfl

/-- `addSources` only touches sources. -/
theorem addSources_summary (ss : List SourceRec) (c : WebContext) :
    (addSources ss c).summary = c.summary := rfl

/-- `setSummary` leaves the title alone. -/
theorem setSummary_title (s : String) (c : WebContext) :
    (setSummary s c).title = c.title := rfl

/-- `setSummaryIfEmpty` leaves the title alone. -/
theorem setSummaryIfEmpty_title (s : String) (c : WebContext) :
    (setSummaryIfEmpty s c).title = c.title := by
  unfold setSummaryIfEmpty; split <;> rfl

/-- `setSummaryIfEmpty` never overwrites a nonempty summary. -/
theorem setSummaryIfEmpty_summary_ne (s : String) {c : WebContext}
    (h : c.summary ≠ "") : (setSummaryIfEmpty s c).summary = c.summary := by
  unfold setSummaryIfEmpty; rw [if_neg h]

/-- `setTitleIfEmpty` leaves the summary alone. -/
theorem setTitleIfEmpty_summary (t : String) (c : WebContext) :
    (setTitleIfEmpty t c).summary = c.summary := by
  unfold setTitleIfEmpty; split <;> rfl

/-- `setTitleIfEmpty` never overwrites a nonempty title. -/
theorem setTitleIfEmpty_title_ne (t : String) {c : WebContext}
    (h : c.title ≠ "") : (setTitleIfEmpty t c).title = c.title := by
  unfold setTitleIfEmpty; rw [if_neg h]

/-- The results-based title assignment leaves the summary alone. -/
theorem setTitleIfEmptyFromResults_summary (ts : List String) (c : WebContext) :
    (setTitleIfEmptyFromResults ts c).summary = c.summary := by
  unfold setTitleIfEmptyFromResults
  split
  · split <;> rfl
  · rfl

/-- The results-based title assignment never overwrites a nonempty title. -/
theorem setTitleIfEmptyFromResults_title_ne (ts : List String) {c : WebContext}
    (h : c.title ≠ "") : (setTitleIfEmptyFromResults ts c).title = c.title := by
  unfold setTitleIfEmptyFromResults; rw [if_neg h]

/-- The invariant connecting title and summary along one chain run: a title
can only have been written together with a nonempty summary. -/
def CtxInv (c : WebContext) : Prop := c.title ≠ "" → c.summary ≠ ""

/-- `_tavily_search` maintains the invariant: it writes a title only in the
branch where the summary ends up nonempty. -/
theorem tavily_search_inv (resp : TavilyResp) (c : WebContext) (h : CtxInv c) :
    CtxInv (_tavily_search resp c) := by
  unfold _tavily_search
  split
  · rename_i hsum
    intro _
    rw [setTitleIfEmptyFromResults_summary]
    unfold setSummaryIfEmpty
    split
    · show pyJoin " " ((tavilySummaries resp).take 2) ≠ ""
      exact tavilyJoin_ne resp hsum
    · rename_i hne
      exact hne
  · intro ht
    rw [addSources_summary, addDirectAnswer_summary]
    apply h
    rw [addSources_title, addDirectAnswer_title] at ht
    exact ht

/-- `_brave_search` maintains the invariant. -/
theorem brave_search_inv (resp : BraveResp) (c : WebContext) (h : CtxInv c) :
    CtxInv (_brave_search resp c) := by
  unfold _brave_search
  split
  · rename_i hsum
    intro _
    rw [setTitleIfEmptyFromResults_summary]
    show pyJoin " " ((braveSummaries resp).take 3) ≠ ""
    exact braveJoin_ne resp hsum
  · intro ht
    rw [addSources_summary]
    apply h
    rw [addSources_title] at ht
    exact ht

/-- `_brave_search` never overwrites a nonempty title. -/
theorem brave_search_title (resp : BraveResp) (c : WebContext)
    (h : c.title ≠ "") : (_brave_search resp c).title = c.title := by
  unfold _brave_search
  split
  · have hin : (setSummary (pyJoin " " ((braveSummaries resp).take 3))
        (addSources (braveSources resp) c)).title = c.title := by
      rw [setSummary_title, addSources_title]
    rw [setTitleIfEmptyFromResults_title_ne _ (by rw [hin]; exact h), hin]
  · exact addSources_title _ _

/-- `wikiRestAddSource` only touches sources. -/
theorem wikiRestAddSource_summary (resp : WikiRestResp) (c : WebContext) :
    (wikiRestAddSource resp c).summary = c.summary := by
  unfold wikiRestAddSource; split <;> rfl

/-- `wikiRestAddSource` only touches sources. -/
theorem wikiRestAddSource_title (resp : WikiRestResp) (c : WebContext) :
    (wikiRestAddSource resp c).title = c.title := by
  unfold wikiRestAddSource; split <;> rfl

/-- `_wikipedia_rest` never overwrites a nonempty summary. -/
theorem wikipedia_rest_summary (resp : WikiRestResp) (c : WebContext)
    (h : c.summary ≠ "") : (_wikipedia_rest resp c).summary = c.summary := by
  unfold _wikipedia_rest
  split
  · rfl
  · rw [wikiRestAddSource_summary,
      setSummaryIfEmpty_summary_ne _ (by rw [setTitleIfEmpty_summary]; exact h),
      setTitleIfEmpty_summary]

/-- `_wikipedia_rest` never overwrites a nonempty title. -/
theorem wikipedia_rest_title (resp : WikiRestResp) (c : WebContext)
    (h : c.title ≠ "") : (_wikipedia_rest resp c).title = c.title := by
  unfold _wikipedia_rest
  split
  · rfl
  · rw [wikiRestAddSource_title, setSummaryIfEmpty_title,
      setTitleIfEmpty_title_ne _ h]

/-- `_wikipedia_search` never writes a title. -/
theorem wikiSearchGo_title (l : List WikiSearchItem) :
    ∀ c : WebContext, (wikiSearchGo l c).title = c.title := by
  induction l with
  | nil => intro c; rfl
  | cons it rest ih =>
    intro c
    unfold wikiSearchGo
    split
    · rw [ih, addSources_title, setSummaryIfEmpty_title]
    · exact ih c

/-- A chain step skipped by its guard: Brave does not run once a summary
exists. -/
theorem step_brave_skip (env : ProviderEnv) (q : String) {c : WebContext}
    (h : c.summary ≠ "") : step_brave env q c = c := by
  unfold step_brave
  exact if_neg fun hc => h hc.2

/-- DuckDuckGo does not run once a summary exists. -/
theorem step_ddg_skip (env : ProviderEnv) (q : String) {c : WebContext}
    (h : c.summary ≠ "") : step_ddg env q c = c := by
  unfold step_ddg
  exact if_neg h

/-- Wikipedia full-text search does not run once a summary exists. -/
theorem step_wikiSearch_skip (env : ProviderEnv) (q : String) {c : WebContext}
    (h : c.summary ≠ "") : step_wikiSearch env q c = c := by
  unfold step_wikiSearch
  exact if_neg h

/-- The Wikipedia-REST step (which may run on a short nonempty summary)
never overwrites a nonempty summary. -/
theorem step_wikiRest_summary (env : ProviderEnv) (q : String) {c : WebContext}
    (h : c.summary ≠ "") : (step_wikiRest env q c).summary = c.summary := by
  unfold step_wikiRest
  split
  · cases henv : env.wikiRest q with
    | ok r =>
      simp only [attempt, henv]
      exact wikipedia_rest_summary r c h
    | error e => simp only [attempt, henv]
  · rfl

/-- The Wikipedia-REST step never overwrites a nonempty title. -/
theorem step_wikiRest_title (env : ProviderEnv) (q : String) {c : WebContext}
    (h : c.title ≠ "") : (step_wikiRest env q c).title = c.title := by
  unfold step_wikiRest
  split
  · cases henv : env.wikiRest q with
    | ok r =>
      simp only [attempt, henv]
      exact wikipedia_rest_title r c h
    | error e => simp only [attempt, henv]
  · rfl

/-- The Brave step never overwrites a nonempty title. -/
theorem step_brave_title (env : ProviderEnv) (q : String) {c : WebContext}
    (h : c.title ≠ "") : (step_brave env q c).title = c.title := by
  unfold step_brave
  split
  · cases henv : env.brave q with
    | ok r =>
      simp only [attempt, henv]
      exact brave_search_title r c h
    | error e => simp only [attempt, henv]
  · rfl

/-- The Wikipedia full-text step never writes a title at all. -/
theorem step_wikiSearch_title (env : ProviderEnv) (q : String) (c : WebContext) :
    (step_wikiSearch env q c).title = c.title := by
  unfold step_wikiSearch
  split
  · cases henv : env.wikiSearch q with
    | ok r =>
      simp only [attempt, henv]
      exact wikiSearchGo_title _ c
    | error e => simp only [attempt, henv]
  · rfl

/-- The Tavily step maintains the title/summary invariant. -/
theorem step_tavily_inv (env : ProviderEnv) (q : String) {c : WebContext}
    (h : CtxInv c) : CtxInv (step_tavily env q c) := by
  unfold step_tavily
  split
  · cases henv : env.tavily q with
    | ok r =>
      simp only [attempt, henv]
      exact tavily_search_inv r c h
    | error e =>
      simp only [attempt, henv]
      exact h
  · exact h

/-- The Brave step maintains the title/summary invariant. -/
theorem step_brave_inv (env : ProviderEnv) (q : String) {c : WebContext}
    (h : CtxInv c) : CtxInv (step_brave env q c) := by
  unfold step_brave
  split
  · cases henv : env.brave q with
    | ok r =>
      simp only [attempt, henv]
      exact brave_search_inv r c h
    | error e =>
      simp only [attempt, henv]
      exact h
  · exact h

/-- C6.  In one run of the chain, once the accumulator's summary is
non-empty at any stage, every later provider call leaves it unchanged; and
likewise for the title.  (The DuckDuckGo title write is unconditional in
code, but is only reachable while the title is still empty: a nonempty title
at stages 1-2 forces a nonempty summary — `CtxInv` — which makes the
DuckDuckGo guard skip the call.) -/
theorem aggregator_first_writer_wins (env : ProviderEnv) (q : String) :
    ((stage1 env q).summary ≠ "" →
      (stage2 env q).summary = (stage1 env q).summary ∧
      (stage3 env q).summary = (stage1 env q).summary ∧
      (stage4 env q).summary = (stage1 env q).summary ∧
      (stage5 env q).summary = (stage1 env q).summary) ∧
    ((stage2 env q).summary ≠ "" →
      (stage3 env q).summary = (stage2 env q).summary ∧
      (stage4 env q).summary = (stage2 env q).summary ∧
      (stage5 env q).summary = (stage2 env q).summary) ∧
    ((stage3 env q).summary ≠ "" →
      (stage4 env q).summary = (stage3 env q).summary ∧
      (stage5 env q).summary = (stage3 env q).summary) ∧
    ((stage4 env q).summary ≠ "" →
      (stage5 env q).summary = (stage4 env q).summary) ∧
    ((stage1 env q).title ≠ "" →
      (stage2 env q).title = (stage1 env q).title ∧
      (stage3 env q).title = (stage1 env q).title ∧
      (stage4 env q).title = (stage1 env q).title ∧
      (stage5 env q).title = (stage1 env q).title) ∧
    ((stage2 env q).title ≠ "" →
      (stage3 env q).title = (stage2 env q).title ∧
      (stage4 env q).title = (stage2 env q).title ∧
      (stage5 env q).title = (stage2 env q).title) ∧
    ((stage3 env q).title ≠ "" →
      (stage4 env q).title = (stage3 env q).title ∧
      (stage5 env q).title = (stage3 env q).title) ∧
    ((stage4 env q).title ≠ "" →
      (stage5 env q).title = (stage4 env q).title) := by
  have e2 : stage2 env q = step_brave env (_clean_query q) (stage1 env q) := rfl
  have e3 : stage3 env q = step_ddg env (_clean_query q) (stage2 env q) := rfl
  have e4 : stage4 env q = step_wikiRest env (_clean_query q) (stage3 env q) := rfl
  have e5 : stage5 env q = step_wikiSearch env (_clean_query q) (stage4 env q) := rfl
  have inv0 : CtxInv ({} : WebContext) := fun hc => absurd rfl hc
  have inv1 : CtxInv (stage1 env q) := step_tavily_inv env _ inv0
  have inv2 : CtxInv (stage2 env q) := by rw [e2]; exact step_brave_inv env _ inv1
  refine ⟨?_, ?_, ?_, ?_, ?_, ?_, ?_, ?_⟩
  · intro h1
    have s2 : stage2 env q = stage1 env q := by rw [e2]; exact step_brave_skip env _ h1
    have s3 : stage3 env q = stage2 env q := by
      rw [e3]; exact step_ddg_skip env _ (by rw [s2]; exact h1)
    have s4 : (stage4 env q).summary = (stage3 env q).summary := by
      rw [e4]; exact step_wikiRest_summary env _ (by rw [s3, s2]; exact h1)
    have s5 : stage5 env q = stage4 env q := by
      rw [e5]; exact step_wikiSearch_skip env _ (by rw [s4, s3, s2]; exact h1)
    exact ⟨by rw [s2], by rw [s3, s2], by rw [s4, s3, s2], by rw [s5, s4, s3, s2]⟩
  · intro h2
    have s3 : stage3 env q = stage2 env q := by rw [e3]; exact step_ddg_skip env _ h2
    have s4 : (stage4 env q).summary = (stage3 env q).summary := by
      rw [e4]; exact step_wikiRest_summary env _ (by rw [s3]; exact h2)
    have s5 : stage5 env q = stage4 env q := by
      rw [e5]; exact step_wikiSearch_skip env _ (by rw [s4, s3]; exact h2)
    exact ⟨by rw [s3], by rw [s4, s3], by rw [s5, s4, s3]⟩
  · intro h3
    have s4 : (stage4 env q).summary = (stage3 env q).summary := by
      rw [e4]; exact step_wikiRest_summary env _ h3
    have s5 : stage5 env q = stage4 env q := by
      rw [e5]; exact step_wikiSearch_skip env _ (by rw [s4]; exact h3)
    exact ⟨s4, by rw [s5, s4]⟩
  · intro h4
    have s5 : stage5 env q = stage4 env q := by
      rw [e5]; exact step_wikiSearch_skip env _ h4
    rw [s5]
  · intro ht1
    have t2 : (stage2 env q).title = (stage1 env q).title := by
      rw [e2]; exact step_brave_title env _ ht1
    have hsum2 : (stage2 env q).summary ≠ "" := inv2 (by rw [t2]; exact ht1)
    have s3 : stage3 env q = stage2 env q := by rw [e3]; exact step_ddg_skip env _ hsum2
    have t3 : (stage3 env q).title = (stage1 env q).title := by rw [s3, t2]
    have t4 : (stage4 env q).title = (stage3 env q).title := by
      rw [e4]; exact step_wikiRest_title env _ (by rw [t3]; exact ht1)
    have t5 : (stage5 env q).title = (stage4 env q).title := by
      rw [e5]; exact step_wikiSearch_title env _ _
    exact ⟨t2, t3, by rw [t4, t3], by rw [t5, t4, t3]⟩
  · intro ht2
    have hsum2 : (stage2 env q).summary ≠ "" := inv2 ht2
    have s3 : stage3 env q = stage2 env q := by rw [e3]; exact step_ddg_skip env _ hsum2
    have t3 : (stage3 env q).title = (stage2 env q).title := by rw [s3]
    have t4 : (stage4 env q).title = (stage3 env q).title := by
      rw [e4]; exact step_wikiRest_title env _ (by rw [t3]; exact ht2)
    have t5 : (stage5 env q).title = (stage4 env q).title := by
      rw [e5]; exact step_wikiSearch_title env _ _
    exact ⟨t3, by rw [t4, t3], by rw [t5, t4, t3]⟩
  · intro ht3
    have t4 : (stage4 env q).title = (stage3 env q).title := by
      rw [e4]; exact step_wikiRest_title env _ ht3
    have t5 : (stage5 env q).title = (stage4 env q).title := by
      rw [e5]; exact step_wikiSearch_title env _ _
    exact ⟨t4, by rw [t5, t4]⟩
  · intro _
    rw [e5]
    exact step_wikiSearch_title env _ _

/-- An environment in which two providers (Tavily and DuckDuckGo) would both
produce a non-empty summary. -/
def envTwoSummaries : ProviderEnv :=
  { tavilyApiKey := "k"
    tavily := fun _ => .ok
      { results := [{ title := "T", content := "tavily summary text", url := "https://t" }] }
    ddg := fun _ => .ok { heading := "DDGH", abstractText := "ddg abstract" } }

/-- C6 witness: with both Tavily and DuckDuckGo offering summaries, the
first writer's summary survives to the end of the chain. -/
theorem aggregator_first_writer_wins_witness :
    (stage1 envTwoSummaries "q").summary = "tavily summary text" ∧
    (stage5 envTwoSummaries "q").summary = "tavily summary text" := by
  have h := (aggregator_first_writer_wins envTwoSummaries "q").1 (by decide)
  exact ⟨rfl, by rw [h.2.2.2]; rfl⟩
